import Mathlib

/-!
Verification of the core render/event loop of `x11-datetime-overlay`
(src/src/main.c): a shallow embedding of the sleep computation, event
classification, the per-iteration `need_redraw` logic, the geometry
computation with its C integer casts, the time formatting, and the redraw
action sequence, together with theorems about them.
-/

namespace Osdt

/-! ## C integer cast helpers

The source stores sizes in `uint16_t`, coordinates in `int16_t`, and the
margin in `uint32_t`; the conversions below model the C casts used in
`main` (truncation modulo 2^16 / 2^32, with the signed casts following the
two's-complement behavior of the target compiler). -/

/-- Cast of an integer value to `uint16_t`: reduction modulo 2^16. -/
def toU16 (z : ℤ) : ℕ := (z % 65536).toNat

/-- Cast of an integer value to `int16_t`: reduce modulo 2^16, then
reinterpret the result in `[-32768, 32767]`. -/
def toI16 (z : ℤ) : ℤ :=
  if z % 65536 < 32768 then z % 65536 else z % 65536 - 65536

/-- Cast of a `uint32_t` value to `int`: reduce modulo 2^32, then
reinterpret the result in `[-2^31, 2^31)`. -/
def toI32 (n : ℕ) : ℤ :=
  if ((n % 4294967296 : ℕ) : ℤ) < 2147483648 then ((n % 4294967296 : ℕ) : ℤ)
  else ((n % 4294967296 : ℕ) : ℤ) - 4294967296

/-- C truncation of a real quantity on conversion to `int` (rounds toward
zero); the cairo metrics are modelled as rationals. -/
def truncQ (q : ℚ) : ℤ := if 0 ≤ q then ⌊q⌋ else ⌈q⌉

/-! ## Sleep computation (main.c, `ms_to_next_second`, lines 169-175) -/

/-- `ms_to_next_second`, as a function of the current wall-clock instant
expressed in milliseconds since the epoch.  In the source, `ms` is
`ts.tv_nsec / 1000000L`, which equals `nowMillis % 1000`; `rem` is
`1000L - (ms % 1000L)`, and the result is normalized to `0` when `rem`
is `1000`. -/
def ms_to_next_second (nowMillis : ℕ) : ℤ :=
  let ms : ℤ := (nowMillis : ℤ) % 1000
  let rem : ℤ := 1000 - ms % 1000
  if rem = 1000 then 0 else rem

/-! ## Event classification (main.c, lines 322-332) -/

/-- `XCB_EXPOSE` response code. -/
def XCB_EXPOSE : ℕ := 12

/-- `XCB_VISIBILITY_NOTIFY` response code. -/
def XCB_VISIBILITY_NOTIFY : ℕ := 15

/-- `XCB_CONFIGURE_NOTIFY` response code. -/
def XCB_CONFIGURE_NOTIFY : ℕ := 22

/-- The masked response type `ev->response_type & ~0x80` of an event,
modelled on the raw `uint8_t` response byte. -/
def masked_rt (response_type : ℕ) : ℕ := response_type % 128

/-- The drain-loop condition of main.c line 328: does the (masked) response
type warrant a redraw? -/
def is_redraw_event (rt : ℕ) : Bool :=
  rt == XCB_EXPOSE || rt == XCB_VISIBILITY_NOTIFY || rt == XCB_CONFIGURE_NOTIFY

/-- Effect of handling one drained event (raw response byte `e`) on the
`need_redraw` flag (main.c lines 324-330): the conditional sets the flag,
and otherwise leaves it unchanged. -/
def drain_step (need_redraw : Bool) (e : ℕ) : Bool :=
  if is_redraw_event (masked_rt e) then true else need_redraw

/-- Draining the whole queued event list (main.c lines 322-332). -/
def drain (need_redraw : Bool) (evs : List ℕ) : Bool :=
  evs.foldl drain_step need_redraw

/-- Number of times the drain loop executes the assignment
`need_redraw = true` for a given queue. -/
def drain_count (evs : List ℕ) : ℕ :=
  (evs.filter (fun e => is_redraw_event (masked_rt e))).length

/-! ## One iteration of the main loop (main.c, lines 313-403) -/

/-- Outcome of the combined `poll` wait: `ready` is `pr > 0`, `timeout` is
`pr == 0`, `eintr` is `pr < 0 && errno == EINTR`, `errOther` is `pr < 0`
with a different `errno`. -/
inductive PollResult
  | ready
  | timeout
  | eintr
  | errOther
deriving DecidableEq, Repr

/-- Observable summary of one iteration of the `for (;;)` loop:
whether the drain phase ran, the value of `need_redraw` at the redraw
decision, whether the redraw body ran, and how many times the iteration
executed an assignment `need_redraw = true`. -/
structure IterResult where
  drained : Bool
  need_redraw : Bool
  redrawn : Bool
  forced_count : ℕ
deriving DecidableEq, Repr

/-- One iteration of the main loop, given the poll outcome and the queued
events.  On `eintr` the source executes `continue` immediately (line 317):
no draining, no redraw.  Otherwise `need_redraw` starts `false`
(line 319), the queue is drained (lines 322-332), and a timeout forces
`need_redraw = true` (lines 335-337); the redraw body runs iff
`need_redraw` holds (line 339). -/
def loop_iter (pr : PollResult) (evs : List ℕ) : IterResult :=
  if pr = .eintr then
    { drained := false, need_redraw := false, redrawn := false, forced_count := 0 }
  else
    let nr := drain false evs
    let nr2 := if pr = .timeout then true else nr
    let fc := drain_count evs + (if pr = .timeout then 1 else 0)
    { drained := true, need_redraw := nr2, redrawn := nr2, forced_count := fc }

/-- The only cross-iteration mutable loop state in the source:
`last_str` (main.c line 311). -/
structure LoopState where
  last_str : String
deriving DecidableEq, Repr

/-- State update of one iteration: `last_str` is overwritten (truncated to
63 bytes by `strncpy`, main.c lines 401-402) only when the redraw body
ran. -/
def loop_iter_state (pr : PollResult) (evs : List ℕ) (st : LoopState)
    (nowstr : String) : LoopState :=
  if (loop_iter pr evs).redrawn then { last_str := nowstr.take 63 } else st

/-- The wait duration used by an iteration entered at wall-clock
`nowMillis`: recomputed fresh at the top of every iteration
(main.c line 314). -/
def iter_timeout (nowMillis : ℕ) : ℤ := ms_to_next_second nowMillis

/-! ## Text metrics and geometry (main.c, lines 347-361) -/

/-- The cairo measurements used by the redraw body: `te.x_advance`,
`fe.ascent`, `fe.descent`, `te.x_bearing`, modelled as rationals. -/
structure TextMetrics where
  x_advance : ℚ
  ascent : ℚ
  descent : ℚ
  x_bearing : ℚ
deriving DecidableEq, Repr

/-- `int text_w = (int)(te.x_advance + 0.5);` (main.c line 353). -/
def text_w (m : TextMetrics) : ℤ := truncQ (m.x_advance + 1/2)

/-- `int text_h = (int)(fe.ascent + fe.descent + 0.5);` (main.c line 354). -/
def text_h (m : TextMetrics) : ℤ := truncQ (m.ascent + m.descent + 1/2)

/-- `uint16_t pad = (uint16_t)(opt.margin_px);` (main.c line 356), the
margin being a `uint32_t`. -/
def pad (margin_px : ℕ) : ℕ := margin_px % 65536

/-- `uint16_t win_w = (uint16_t)(text_w + pad * 2);` (main.c line 357):
the sum is computed in `int` and truncated to 16 bits. -/
def win_w (m : TextMetrics) (margin_px : ℕ) : ℕ :=
  toU16 (text_w m + 2 * (pad margin_px : ℤ))

/-- `uint16_t win_h = (uint16_t)(text_h + pad * 2);` (main.c line 358). -/
def win_h (m : TextMetrics) (margin_px : ℕ) : ℕ :=
  toU16 (text_h m + 2 * (pad margin_px : ℤ))

/-- The geometry applied by the configure request:
`{x, y, width, height}` with `x : int16_t`, `y : int16_t`,
`width height : uint16_t`. -/
structure WindowGeometry where
  x : ℤ
  y : ℤ
  w : ℕ
  h : ℕ
deriving DecidableEq, Repr

/-- The per-tick layout computation (main.c lines 353-361):
`new_x = (int16_t)((int)screen->width_in_pixels - (int)win_w -
(int)opt.margin_px)` and `new_y = (int16_t)opt.margin_px`, where
`screen->width_in_pixels` is a `uint16_t` and the `int` arithmetic is
exact on the values reachable here. -/
def computeGeometry (m : TextMetrics) (margin_px screenW : ℕ) : WindowGeometry :=
  { x := toI16 ((screenW % 65536 : ℕ) - (win_w m margin_px : ℤ) - toI32 margin_px)
  , y := toI16 (margin_px : ℤ)
  , w := win_w m margin_px
  , h := win_h m margin_px }

/-- Round a quantity to the nearest integer pixel, half up.  This is the
spec's rounding rule ("rounded to the nearest integer pixel
(round-half-up)"), stated independently of the source for comparison. -/
def roundHalfUp (q : ℚ) : ℤ := ⌊q + 1/2⌋

/-- The spec's width formula `ceil(metrics.advanceWidth) + 2*margin`,
stated from the spec's words for comparison with `win_w`. -/
def specCeilWidth (m : TextMetrics) (margin_px : ℕ) : ℤ :=
  ⌈m.x_advance⌉ + 2 * (margin_px : ℤ)

/-- The spec's height formula `ceil(metrics.ascent + metrics.descent) +
2*margin`, stated from the spec's words for comparison with `win_h`. -/
def specCeilHeight (m : TextMetrics) (margin_px : ℕ) : ℤ :=
  ⌈m.ascent + m.descent⌉ + 2 * (margin_px : ℤ)

/-! ## Time formatting (main.c, `now_timestr`, lines 161-167)

`now_timestr` obtains the broken-down local time with `localtime_r` and
formats it with `strftime` using `"%H:%M:%S"` when `time_only` and
`"%Y-%m-%d %H:%M:%S"` otherwise.  `localtime_r` and `strftime` are libc;
the broken-down local time is therefore taken as the input, with the
`struct tm` conventions (`tm_year` = years since 1900, `tm_mon` 0-based),
and the two format strings are modelled from strftime's documented
behavior (`%Y` year with century; `%m %d %H %M %S` zero-padded to two
digits). -/

/-- Broken-down local time, with the `struct tm` field conventions. -/
structure Tm where
  tm_year : ℕ
  tm_mon : ℕ
  tm_mday : ℕ
  tm_hour : ℕ
  tm_min : ℕ
  tm_sec : ℕ
deriving DecidableEq, Repr

/-- Zero-pad a numeric field to two digits, as strftime's `%m`, `%d`,
`%H`, `%M`, `%S` do. -/
def pad2 (n : ℕ) : String := if n < 10 then "0" ++ toString n else toString n

/-- `strftime` with format `"%H:%M:%S"`. -/
def strftime_hms (lt : Tm) : String :=
  pad2 lt.tm_hour ++ ":" ++ pad2 lt.tm_min ++ ":" ++ pad2 lt.tm_sec

/-- `strftime` with format `"%Y-%m-%d %H:%M:%S"`. -/
def strftime_full (lt : Tm) : String :=
  toString (1900 + lt.tm_year) ++ "-" ++ pad2 (lt.tm_mon + 1) ++ "-" ++
    pad2 lt.tm_mday ++ " " ++ strftime_hms lt

/-- `now_timestr` (main.c lines 161-167) as a function of the broken-down
local time: select the format string by `time_only` and format. -/
def now_timestr (lt : Tm) (time_only : Bool) : String :=
  if time_only then strftime_hms lt else strftime_full lt

/-! ## The redraw body as an action trace (main.c, lines 339-402) -/

/-- The externally visible requests issued by one execution of the redraw
body, in program order. -/
inductive Action
  | configure (x y : ℤ) (w h : ℕ)
  | createSurface (w h : ℕ)
  | paintBG
  | drawText (x y : ℚ) (s : String)
  | flushX
deriving DecidableEq, Repr

/-- The sequence of requests issued by the redraw body for display string
`s`: the configure request with stack-above (line 371), the cairo surface
creation at `win_w × win_h` (line 379), the background paint (line 384),
the text draw at `(pad - te.x_bearing, pad + fe.ascent)` (lines 391-395),
and the flush (line 400). -/
def redraw_actions (m : TextMetrics) (margin_px screenW : ℕ) (s : String) :
    List Action :=
  let g := computeGeometry m margin_px screenW
  [ Action.configure g.x g.y g.w g.h
  , Action.createSurface g.w g.h
  , Action.paintBG
  , Action.drawText ((pad margin_px : ℚ) - m.x_bearing)
      ((pad margin_px : ℚ) + m.ascent) s
  , Action.flushX ]

end Osdt

namespace Osdt

/-! ## Theorems: sleep computation -/

/-- C1: for every wall-clock instant (in milliseconds), the sleep
computation returns a value in [0, 999], and the instant plus that value
is an exact second boundary; the value is `1000 - (nowMillis mod 1000)`,
normalized to 0 exactly on a boundary. -/
theorem ms_to_next_second_boundary (t : ℕ) :
    0 ≤ ms_to_next_second t ∧ ms_to_next_second t ≤ 999 ∧
      ((t : ℤ) + ms_to_next_second t) % 1000 = 0 := by
  have h : ms_to_next_second t =
      if 1000 - ((t : ℤ) % 1000) % 1000 = 1000 then 0
      else 1000 - ((t : ℤ) % 1000) % 1000 := rfl
  rw [h]
  split <;> omega

/-! ## Helper lemmas about the cast functions -/

theorem truncQ_of_nonneg (q : ℚ) (h : 0 ≤ q) : truncQ q = ⌊q⌋ := if_pos h

theorem truncQ_mono {q r : ℚ} (h : q ≤ r) : truncQ q ≤ truncQ r := by
  unfold truncQ
  by_cases hq : 0 ≤ q <;> by_cases hr : 0 ≤ r
  · rw [if_pos hq, if_pos hr]; exact Int.floor_le_floor h
  · exact absurd (le_trans hq h) hr
  · rw [if_neg hq, if_pos hr]
    have h1 : (⌈q⌉ : ℤ) ≤ 0 := Int.ceil_le.mpr (by push_cast; linarith [not_le.mp hq])
    have h2 : (0 : ℤ) ≤ ⌊r⌋ := Int.floor_nonneg.mpr hr
    omega
  · rw [if_neg hq, if_neg hr]; exact Int.ceil_le_ceil h

theorem toU16_cast (z : ℤ) : (toU16 z : ℤ) = z % 65536 := by
  unfold toU16
  exact Int.toNat_of_nonneg (Int.emod_nonneg z (by norm_num))

theorem toU16_eq_of_range (z : ℤ) (h0 : 0 ≤ z) (h1 : z < 65536) :
    (toU16 z : ℤ) = z := by
  rw [toU16_cast]; omega

theorem toI16_eq_of_range (z : ℤ) (h1 : -32768 ≤ z) (h2 : z < 32768) :
    toI16 z = z := by
  unfold toI16
  have h3 : z % 65536 = z ∨ z % 65536 = z + 65536 := by omega
  rcases h3 with h | h <;> rw [h] <;> split <;> omega

theorem toI32_eq_of_range (n : ℕ) (h : n < 2147483648) : toI32 n = n := by
  unfold toI32
  rw [Nat.mod_eq_of_lt (by omega)]
  rw [if_pos (by exact_mod_cast h)]

/-! ## Theorems: event classification and the loop -/

/-- C2: during draining, an event whose (masked) type is Expose,
VisibilityNotify or ConfigureNotify sets `need_redraw` to true, and an
event of any other type leaves `need_redraw` unchanged. -/
theorem drain_step_classifies (nr : Bool) (e : ℕ) :
    ((masked_rt e = XCB_EXPOSE ∨ masked_rt e = XCB_VISIBILITY_NOTIFY ∨
        masked_rt e = XCB_CONFIGURE_NOTIFY) → drain_step nr e = true) ∧
    ((masked_rt e ≠ XCB_EXPOSE ∧ masked_rt e ≠ XCB_VISIBILITY_NOTIFY ∧
        masked_rt e ≠ XCB_CONFIGURE_NOTIFY) → drain_step nr e = nr) := by
  unfold drain_step is_redraw_event XCB_EXPOSE XCB_VISIBILITY_NOTIFY XCB_CONFIGURE_NOTIFY
  constructor
  · intro h
    rcases h with h | h | h <;> simp [h]
  · intro h
    rw [if_neg]
    simp only [Bool.or_eq_true, beq_iff_eq]
    push_neg
    exact ⟨⟨h.1, h.2.1⟩, h.2.2⟩

/-- Witness for C2: a drained Expose event (type 12) sets the flag from a
clear state, and an unrelated event type (99) leaves it clear. -/
theorem drain_step_classifies_witness :
    drain_step false 12 = true ∧ drain_step false 99 = false :=
  ⟨(drain_step_classifies false 12).1 (by decide),
   (drain_step_classifies false 99).2 (by decide)⟩

/-- C3: in an iteration whose combined wait expires by timeout with no
events pending, `need_redraw` is forced true by exactly one assignment,
the redraw runs, and the (empty) drain neither adds another forcing nor
cancels one: the drain of an empty queue performs zero assignments and
preserves the flag. -/
theorem timeout_forces_redraw_once :
    loop_iter .timeout [] =
      { drained := true, need_redraw := true, redrawn := true, forced_count := 1 } ∧
    drain_count [] = 0 ∧ drain true [] = true ∧ drain false [] = false := by
  refine ⟨rfl, rfl, rfl, rfl⟩

/-- C7: when the wait returns interrupted-by-signal (EINTR), the iteration
re-enters Sleeping immediately: no draining, no redraw decision, no redraw,
the loop state is unchanged, and the next wait duration is recomputed fresh
from the then-current wall clock. -/
theorem eintr_skips_iteration (evs : List ℕ) (st : LoopState) (s : String)
    (nowM : ℕ) :
    loop_iter .eintr evs =
      { drained := false, need_redraw := false, redrawn := false, forced_count := 0 } ∧
    loop_iter_state .eintr evs st s = st ∧
    iter_timeout nowM = ms_to_next_second nowM := by
  refine ⟨rfl, ?_, rfl⟩
  unfold loop_iter_state loop_iter
  simp

/-- C8: within one redraw tick, the configure request carrying the tick's
geometry (position, size and stack-above) is issued strictly before the
drawing surface is created, and the surface is created at exactly the
configured width and height. -/
theorem configure_precedes_surface (m : TextMetrics) (margin_px screenW : ℕ)
    (s : String) :
    ∃ i j : ℕ, i < j ∧
      (redraw_actions m margin_px screenW s)[i]? =
        some (Action.configure (computeGeometry m margin_px screenW).x
          (computeGeometry m margin_px screenW).y
          (computeGeometry m margin_px screenW).w
          (computeGeometry m margin_px screenW).h) ∧
      (redraw_actions m margin_px screenW s)[j]? =
        some (Action.createSurface (computeGeometry m margin_px screenW).w
          (computeGeometry m margin_px screenW).h) := by
  exact ⟨0, 1, by omega, rfl, rfl⟩

/-- C10: the window dimensions are truncated to 16 bits before being
applied: for nonnegative rounded text extents the applied width and height
equal the padded extents reduced modulo 2^16 (the margin itself first
reduced modulo 2^16, which does not change the residue), and when the
padded width reaches 2^16 the applied width wraps below it rather than
saturating. -/
theorem win_size_wraps_mod_u16 (m : TextMetrics) (margin_px : ℕ) :
    (win_w m margin_px : ℤ) = (text_w m + 2 * margin_px) % 65536 ∧
    (win_h m margin_px : ℤ) = (text_h m + 2 * margin_px) % 65536 ∧
    (65536 ≤ text_w m + 2 * (margin_px : ℤ) →
      (win_w m margin_px : ℤ) < text_w m + 2 * margin_px) := by
  have hp : ((pad margin_px : ℕ) : ℤ) = (margin_px : ℤ) % 65536 := by
    unfold pad
    omega
  have hwe : (win_w m margin_px : ℤ) = (text_w m + 2 * margin_px) % 65536 := by
    unfold win_w
    rw [toU16_cast, hp]
    omega
  have hhe : (win_h m margin_px : ℤ) = (text_h m + 2 * margin_px) % 65536 := by
    unfold win_h
    rw [toU16_cast, hp]
    omega
  refine ⟨hwe, hhe, fun hbig => ?_⟩
  rw [hwe]
  omega

/-- Witness for C10: with advance width 65520 and margin 8 the padded width
is exactly 2^16 and the applied width wraps to 0, strictly below the padded
width. -/
theorem win_size_wraps_mod_u16_witness :
    (win_w ⟨65520, 14, 4, 0⟩ 8 : ℤ) = (text_w ⟨65520, 14, 4, 0⟩ + 2 * 8) % 65536 ∧
    (win_h ⟨65520, 14, 4, 0⟩ 8 : ℤ) = (text_h ⟨65520, 14, 4, 0⟩ + 2 * 8) % 65536 ∧
    (65536 ≤ text_w ⟨65520, 14, 4, 0⟩ + 2 * ((8 : ℕ) : ℤ) →
      (win_w ⟨65520, 14, 4, 0⟩ 8 : ℤ) < text_w ⟨65520, 14, 4, 0⟩ + 2 * 8) :=
  win_size_wraps_mod_u16 ⟨65520, 14, 4, 0⟩ 8

/-! ## Theorems: geometry -/

/-- C4 counterexample: with margin 8 and advance width 120.25 (a value a
double represents exactly) the code computes width 136 while the claimed
`ceil(advanceWidth) + 2*margin` is 137: the text extent is rounded half-up
by `(int)(te.x_advance + 0.5)`, not ceiled. -/
theorem ceil_width_counterexample :
    win_w ⟨481/4, 14, 4, 0⟩ 8 = 136 ∧
    specCeilWidth ⟨481/4, 14, 4, 0⟩ 8 = 137 ∧
    (win_w ⟨481/4, 14, 4, 0⟩ 8 : ℤ) ≠ specCeilWidth ⟨481/4, 14, 4, 0⟩ 8 := by
  have h1 : win_w ⟨481/4, 14, 4, 0⟩ 8 = 136 := by
    norm_num [win_w, text_w, truncQ, toU16, pad]; decide
  have hc : (⌈(481/4 : ℚ)⌉ : ℤ) = 121 := by
    rw [Int.ceil_eq_iff]
    constructor <;> norm_num
  have h2 : specCeilWidth ⟨481/4, 14, 4, 0⟩ 8 = 137 := by
    norm_num [specCeilWidth, hc]
  exact ⟨h1, h2, by rw [h1, h2]; norm_num⟩

/-- C4 (amended): the computed window size is the text extent rounded to
the nearest integer pixel, half up, plus symmetric padding:
width = floor(advanceWidth + 1/2) + 2*margin and
height = floor(ascent + descent + 1/2) + 2*margin, provided the extents
are nonnegative, the margin is below 2^16 and the padded sizes are below
2^16 (so the 16-bit stores are exact); with margin 8, advance width 120,
ascent 14 and descent 4 this gives width 136 and height 34
(witness below). -/
theorem win_size_round_half_up (m : TextMetrics) (margin_px : ℕ)
    (hadv : 0 ≤ m.x_advance) (hasc : 0 ≤ m.ascent + m.descent)
    (hm : margin_px < 65536)
    (hwr : roundHalfUp m.x_advance + 2 * (margin_px : ℤ) < 65536)
    (hhr : roundHalfUp (m.ascent + m.descent) + 2 * (margin_px : ℤ) < 65536) :
    (win_w m margin_px : ℤ) = roundHalfUp m.x_advance + 2 * margin_px ∧
    (win_h m margin_px : ℤ) = roundHalfUp (m.ascent + m.descent) + 2 * margin_px := by
  have hp : pad margin_px = margin_px := Nat.mod_eq_of_lt hm
  have htw : text_w m = roundHalfUp m.x_advance := by
    unfold text_w roundHalfUp
    exact truncQ_of_nonneg _ (by linarith)
  have hth : text_h m = roundHalfUp (m.ascent + m.descent) := by
    unfold text_h roundHalfUp
    exact truncQ_of_nonneg _ (by linarith)
  have h0w : (0 : ℤ) ≤ roundHalfUp m.x_advance := by
    unfold roundHalfUp
    exact Int.floor_nonneg.mpr (by linarith)
  have h0h : (0 : ℤ) ≤ roundHalfUp (m.ascent + m.descent) := by
    unfold roundHalfUp
    exact Int.floor_nonneg.mpr (by linarith)
  constructor
  · unfold win_w
    rw [htw, hp]
    exact toU16_eq_of_range _ (by omega) (by omega)
  · unfold win_h
    rw [hth, hp]
    exact toU16_eq_of_range _ (by omega) (by omega)

/-- Witness for C4 (amended), the spec's end-to-end scenario: margin 8,
advance width 120, ascent 14, descent 4 give width 136 and height 34. -/
theorem win_size_round_half_up_witness :
    win_w ⟨120, 14, 4, 0⟩ 8 = 136 ∧ win_h ⟨120, 14, 4, 0⟩ 8 = 34 := by
  have h := win_size_round_half_up ⟨120, 14, 4, 0⟩ 8
    (by norm_num) (by norm_num) (by norm_num)
    (by norm_num [roundHalfUp]) (by norm_num [roundHalfUp])
  have h1 : roundHalfUp (⟨120, 14, 4, 0⟩ : TextMetrics).x_advance = 120 := by
    norm_num [roundHalfUp]
  have h2 : roundHalfUp
      ((⟨120, 14, 4, 0⟩ : TextMetrics).ascent + (⟨120, 14, 4, 0⟩ : TextMetrics).descent) = 18 := by
    norm_num [roundHalfUp]
  rw [h1, h2] at h
  obtain ⟨ha, hb⟩ := h
  constructor <;> omega

/-- C5 counterexample: with margin 34000 (a `uint32_t` value the CLI
accepts), advance width 120, ascent 14, descent 4 and screen width 1920,
the computed geometry has `x + width + margin = 67456 ≠ 1920` (the
`int16_t` store wrapped) and `y = -31536 ≠ 34000`. -/
theorem right_alignment_counterexample :
    (computeGeometry ⟨120, 14, 4, 0⟩ 34000 1920).x +
      ((computeGeometry ⟨120, 14, 4, 0⟩ 34000 1920).w : ℤ) + 34000 ≠ 1920 ∧
    (computeGeometry ⟨120, 14, 4, 0⟩ 34000 1920).y ≠ 34000 := by
  have h : computeGeometry ⟨120, 14, 4, 0⟩ 34000 1920 =
      { x := 30872, y := -31536, w := 2584, h := 2482 } := by
    norm_num [computeGeometry, win_w, win_h, text_w, text_h, truncQ, toU16, toI16, toI32, pad]
    decide
  rw [h]
  norm_num

/-- C5 (amended): the window is right-aligned with the configured margin
from the right screen edge — `geometry.x + geometry.width + margin =
screenWidth` — and `geometry.y = margin`, provided the screen width fits a
`uint16_t`, the margin is below 2^15, and the value
`screenWidth - width - margin` lies in the `int16_t` range, so that no
store truncates. -/
theorem right_alignment (m : TextMetrics) (margin_px screenW : ℕ)
    (hsw : screenW < 65536) (hm : margin_px < 32768)
    (hx1 : -32768 ≤ (screenW : ℤ) - (win_w m margin_px : ℤ) - margin_px)
    (hx2 : (screenW : ℤ) - (win_w m margin_px : ℤ) - margin_px < 32768) :
    (computeGeometry m margin_px screenW).x +
      ((computeGeometry m margin_px screenW).w : ℤ) + margin_px = screenW ∧
    (computeGeometry m margin_px screenW).y = margin_px := by
  have hsw2 : screenW % 65536 = screenW := Nat.mod_eq_of_lt hsw
  have h32 : toI32 margin_px = margin_px := toI32_eq_of_range _ (by omega)
  have hx0 : (computeGeometry m margin_px screenW).x =
      toI16 (((screenW % 65536 : ℕ) : ℤ) - (win_w m margin_px : ℤ) - toI32 margin_px) := by
    simp only [computeGeometry]
  have hx : (computeGeometry m margin_px screenW).x =
      (screenW : ℤ) - (win_w m margin_px : ℤ) - margin_px := by
    rw [hx0, hsw2, h32]
    exact toI16_eq_of_range _ hx1 hx2
  have hy0 : (computeGeometry m margin_px screenW).y = toI16 (margin_px : ℤ) := by
    simp only [computeGeometry]
  have hy : (computeGeometry m margin_px screenW).y = margin_px := by
    rw [hy0]
    exact toI16_eq_of_range _ (by omega) (by omega)
  have hwf : (computeGeometry m margin_px screenW).w = win_w m margin_px := by
    simp only [computeGeometry]
  refine ⟨?_, hy⟩
  rw [hx, hwf]
  ring

/-- Witness for C5 (amended), the spec's end-to-end scenario: screen width
1920, margin 8, advance width 120 give x = 1776 with
1776 + 136 + 8 = 1920 and y = 8. -/
theorem right_alignment_witness :
    (computeGeometry ⟨120, 14, 4, 0⟩ 8 1920).x +
      ((computeGeometry ⟨120, 14, 4, 0⟩ 8 1920).w : ℤ) + ((8 : ℕ) : ℤ) = ((1920 : ℕ) : ℤ) ∧
    (computeGeometry ⟨120, 14, 4, 0⟩ 8 1920).y = ((8 : ℕ) : ℤ) := by
  have hw : win_w ⟨120, 14, 4, 0⟩ 8 = 136 := by
    norm_num [win_w, text_w, truncQ, toU16, pad]; decide
  exact right_alignment ⟨120, 14, 4, 0⟩ 8 1920 (by norm_num) (by norm_num)
    (by omega) (by omega)

/-- C9 counterexample: with margin 8, the advance widths 65503 and 65520
agree in every other metric, yet the strictly longer one wraps the padded
width past 2^16 and yields the strictly smaller computed window width
(0 versus 65519). -/
theorem monotonicity_counterexample :
    (⟨65503, 14, 4, 0⟩ : TextMetrics).x_advance <
      (⟨65520, 14, 4, 0⟩ : TextMetrics).x_advance ∧
    win_w ⟨65520, 14, 4, 0⟩ 8 < win_w ⟨65503, 14, 4, 0⟩ 8 := by
  have h1 : win_w ⟨65503, 14, 4, 0⟩ 8 = 65519 := by
    norm_num [win_w, text_w, truncQ, toU16, pad]; decide
  have h2 : win_w ⟨65520, 14, 4, 0⟩ 8 = 0 := by
    norm_num [win_w, text_w, truncQ, toU16, pad]
  exact ⟨by norm_num, by omega⟩

/-- C9 (amended): the geometry computation is monotonic in text advance
width as long as no 16-bit truncation occurs: for metrics agreeing except
in advance width, with the smaller rounded extent nonnegative and the
larger padded width below 2^16, a strictly longer advance width never
yields a smaller computed window width. -/
theorem win_w_monotone (m1 m2 : TextMetrics) (margin_px : ℕ)
    (_hasc : m1.ascent = m2.ascent) (_hdesc : m1.descent = m2.descent)
    (_hbear : m1.x_bearing = m2.x_bearing)
    (hadv : m1.x_advance < m2.x_advance)
    (h0 : 0 ≤ text_w m1)
    (hw2 : text_w m2 + 2 * (pad margin_px : ℤ) < 65536) :
    win_w m1 margin_px ≤ win_w m2 margin_px := by
  have hmono : text_w m1 ≤ text_w m2 := by
    unfold text_w
    exact truncQ_mono (by linarith)
  have e1 : (toU16 (text_w m1 + 2 * (pad margin_px : ℤ)) : ℤ) =
      text_w m1 + 2 * (pad margin_px : ℤ) :=
    toU16_eq_of_range _ (by omega) (by omega)
  have e2 : (toU16 (text_w m2 + 2 * (pad margin_px : ℤ)) : ℤ) =
      text_w m2 + 2 * (pad margin_px : ℤ) :=
    toU16_eq_of_range _ (by omega) (by omega)
  unfold win_w
  omega

/-- Witness for C9 (amended): advance widths 120 and 240 with margin 8 give
window widths 136 and 256 respectively, in order. -/
theorem win_w_monotone_witness :
    win_w ⟨120, 14, 4, 0⟩ 8 ≤ win_w ⟨240, 14, 4, 0⟩ 8 := by
  have ht1 : text_w ⟨120, 14, 4, 0⟩ = 120 := by
    norm_num [text_w, truncQ]
  have ht2 : text_w ⟨240, 14, 4, 0⟩ = 240 := by
    norm_num [text_w, truncQ]
  have hp : pad 8 = 8 := rfl
  exact win_w_monotone ⟨120, 14, 4, 0⟩ ⟨240, 14, 4, 0⟩ 8 rfl rfl rfl
    (by norm_num) (by omega) (by rw [ht2, hp]; norm_num)

/-! ## Theorems: time formatting -/

/-- C6: the time formatter produces `HH:MM:SS` in the local timezone when
`timeOnly` holds and `YYYY-MM-DD HH:MM:SS` otherwise: for the fixed local
instant 2024-01-15T09:05:03 it yields exactly "2024-01-15 09:05:03" and
"09:05:03", and for every broken-down local time the full format is the
formatted date followed by a space and the time-only string. -/
theorem now_timestr_formats :
    now_timestr ⟨124, 0, 15, 9, 5, 3⟩ false = "2024-01-15 09:05:03" ∧
    now_timestr ⟨124, 0, 15, 9, 5, 3⟩ true = "09:05:03" ∧
    ∀ lt : Tm, now_timestr lt false =
      toString (1900 + lt.tm_year) ++ "-" ++ pad2 (lt.tm_mon + 1) ++ "-" ++
        pad2 lt.tm_mday ++ " " ++ now_timestr lt true := by
  exact ⟨rfl, rfl, fun lt => rfl⟩

end Osdt
